import Mathlib

/-!
vultr-cli, `cmd/server.go`: option resolution, request building, argument validation

A shallow embedding of the `server` command tree of `cmd/server.go`.

* Go values of type `interface{}` are `GoValue` (the program only stores strings
  and ints in them); Go `int` flag values are `Int` (no arithmetic is done on them).
* A Go `error` is `Option String`: `none` is `nil`, `some msg` an error whose
  `Error()` text is `msg`.
* A Go `map[string]interface{}` is an association list with distinct keys; the
  unspecified order in which `range` visits it is a parameter (`rangeOrder seed`).
* A handler run is an `Outcome`: what it wrote, the API calls it issued, and how
  it ended (`os.Exit(1)` ends the run at once; an out-of-range index panics).
* The API gateway (`client.Instance`) is a parameter `api : ApiCall → Option String`;
  `ioutil.ReadFile` is a parameter `readFile`.
* `base64.StdEncoding` of Go's standard library is embedded after RFC 4648, section 4.
-/

namespace VultrCli

/-! ## Go values, maps and `range` -/

/-- Dynamic value held in a Go `interface{}`; `server.go` stores strings and ints. -/
inductive GoValue where
  | str (s : String)
  | int (n : Int)
  deriving DecidableEq, Repr

/-- Go's `v != ""` for `v` of type `interface{}`: two interface values are equal
only when their dynamic types are identical and the values equal, so an `int`
never equals the string `""`. -/
def GoValue.neEmptyString : GoValue → Bool
  | .str s => s != ""
  | .int _ => true

/-- Entries of a Go `map[string]interface{}`. -/
abbrev GoMap := List (String × GoValue)

/-- Go's `m[k] = v`: overwrite the entry of `k`, or add one. -/
def GoMap.set : GoMap → String → GoValue → GoMap
  | [], k, v => [(k, v)]
  | (k', v') :: rest, k, v =>
    if k' = k then (k, v) :: rest else (k', v') :: GoMap.set rest k v

/-- One iteration order of `for k, v := range m`: Go leaves the order
unspecified, so it is selected by `seed` among all permutations of the entries. -/
def rangeOrder (seed : Nat) (m : GoMap) : List (String × GoValue) :=
  (List.permutations' m).getD seed m

/-- Go's `%v` rendering of a `[]string`: the elements separated by blanks, in brackets. -/
def fmtStrings (xs : List String) : String :=
  "[" ++ " ".intercalate xs ++ "]"

/-- Text of the error `optionCheck` builds with `fmt.Errorf` for the selected keys. -/
def tooManyMsg (result : List String) : String :=
  "Too many options have been selected : " ++ fmtStrings result ++ " : please select one"

/-- Loop of `optionCheck`: `result` after ranging over the entries in the order `enum`. -/
def optionCheckLoop (enum : List (String × GoValue)) : List String :=
  enum.foldl (fun result kv => if kv.2.neEmptyString then result ++ [kv.1] else result) []

/-- Embedding of `optionCheck(options) (string, error)`; `enum` is the order in which `range`
visits `options`. -/
def optionCheck (enum : List (String × GoValue)) : String × Option String :=
  let result := optionCheckLoop enum
  if result.length > 1 then
    ("", some (tooManyMsg result))
  else if result.length = 0 then
    ("", none)
  else
    (result.headD "", none)

/-- Keys of the entries whose value passes the test `v != ""`, in map order. -/
def selectedKeys (m : GoMap) : List String :=
  (m.filter fun kv => kv.2.neEmptyString).map Prod.fst

/-- A map of string-valued options as a `map[string]interface{}`. -/
def stringOptions (m : List (String × String)) : GoMap :=
  m.map fun kv => (kv.1, GoValue.str kv.2)

/-- Entries of a string-valued map whose value is not the empty string. -/
def nonEmptyEntries (m : List (String × String)) : List (String × String) :=
  m.filter fun kv => kv.2 ≠ ""

-- equality of `Except` values is decided constructor by constructor
deriving instance DecidableEq for Except

/-! ## Requests, API calls and handler outcomes -/

/-- Fields of `govultr.InstanceCreateReq` that `serverCreate` assigns. -/
structure InstanceCreateReq where
  Plan : String
  Region : String
  IPXEChainURL : String
  ISOID : String
  SnapshotID : String
  ScriptID : String
  AttachPrivateNetwork : List String
  Label : String
  SSHKeys : List String
  AppID : Int
  UserData : String
  ReservedIPv4 : String
  Hostname : String
  Tag : String
  FirewallGroupID : String
  EnableIPv6 : Bool
  DDOSProtection : Bool
  ActivationEmail : Bool
  Backups : Bool
  EnablePrivateNetwork : Bool
  OsID : Int
  deriving DecidableEq, Repr

/-- Fields of `govultr.RestoreReq` that `serverRestore` assigns; `\{}` leaves both empty. -/
structure RestoreReq where
  BackupId : String := ""
  SnapshotID : String := ""
  deriving DecidableEq, Repr

/-- Fields of `govultr.BackupScheduleReq` that `backupCreate` assigns. -/
structure BackupScheduleReq where
  Type_ : String
  Hour : Int
  Dow : Int
  Dom : Int
  deriving DecidableEq, Repr

/-- Fields of `govultr.InstanceUpdateReq` that the handlers of `server.go` assign; a
struct literal leaves every field it does not name at its zero value. -/
structure InstanceUpdateReq where
  Plan : String := ""
  Label : String := ""
  Tag : String := ""
  OsID : Int := 0
  AppID : Int := 0
  UserData : String := ""
  FirewallGroupID : String := ""
  deriving DecidableEq, Repr

/-- Calls on `client.Instance` issued by the handlers embedded here. -/
inductive ApiCall where
  | Create (opt : InstanceCreateReq)
  | Update (id : String) (options : InstanceUpdateReq)
  | Restore (id : String) (options : RestoreReq)
  | SetBackupSchedule (id : String) (backup : BackupScheduleReq)
  deriving DecidableEq, Repr

/-- What a handler writes to standard output: text written through `fmt`, or a
rendering by the `printer` package of the gateway's reply. -/
inductive Output where
  | text (s : String)
  | printer (what : String)
  deriving DecidableEq, Repr

/-- How a handler run ends: it returns, calls `os.Exit(code)`, or panics. -/
inductive Ending where
  | returned
  | exit (code : Nat)
  | panic (msg : String)
  deriving DecidableEq, Repr

/-- Observable result of running a handler. -/
structure Outcome where
  out : List Output
  calls : List ApiCall
  ending : Ending
  deriving DecidableEq, Repr

/-! ## `server create` -/

/-- Flag values `serverCreate` reads with `cmd.Flags().Get…`, under the handler's variable names. -/
structure CreateFlags where
  region : String
  plan : String
  osID : Int
  ipxe : String
  iso : String
  snapshot : String
  script : String
  ipv6 : Bool
  privateNetwork : Bool
  networks : List String
  label : String
  ssh : List String
  backup : Bool
  app : Int
  userData : String
  notify : Bool
  ddos : Bool
  ipv4 : String
  host : String
  tag : String
  fwg : String
  deriving DecidableEq, Repr

/-- Defaults registered for the `create` flags in `Server()`. -/
def defaultCreateFlags : CreateFlags :=
  { region := "", plan := "", osID := 0, ipxe := "", iso := "", snapshot := "", script := "",
    ipv6 := false, privateNetwork := false, networks := [], label := "", ssh := [],
    backup := false, app := 0, userData := "", notify := true, ddos := false,
    ipv4 := "", host := "", tag := "", fwg := "" }

/-- Local `osAppID` of `serverCreate`: the OS id submitted with an application. -/
def osAppID : Int := 186

/-- Local `osIsoID` of `serverCreate`: the OS id submitted with an ISO. -/
def osIsoID : Int := 159

/-- Local `osSnapID` of `serverCreate`: the OS id submitted with a snapshot. -/
def osSnapID : Int := 164

/-- Map `osOptions` built by `serverCreate`: the literal with `app_id` (an int) and
`snapshot_id`, then `iso_id` only when the iso flag is non-empty. -/
def createOsOptions (f : CreateFlags) : GoMap :=
  let osOptions : GoMap := [("app_id", .int f.app), ("snapshot_id", .str f.snapshot)]
  if f.iso ≠ "" then osOptions.set "iso_id" (.str f.iso) else osOptions

/-- Value of `osOption` when control reaches the `switch` of `serverCreate`, or the line
printed before `os.Exit(1)` when the handler stops earlier. -/
def createOsOption (seed : Nat) (f : CreateFlags) : Except String String :=
  match optionCheck (rangeOrder seed (createOsOptions f)) with
  | (_, some err) => .error ("error creating instance : " ++ err ++ "\n")
  | (osOption, none) =>
    if osOption = "" ∧ f.osID ≠ 0 then .ok "os_id"
    else if osOption = "" ∧ f.osID = 0 then
      .error "error creating instance: an os ID must be provided\n"
    else .ok osOption

/-- Struct literal `opt` of `serverCreate`, before the `switch` sets `OsID`. -/
def createOptLiteral (f : CreateFlags) : InstanceCreateReq :=
  { Plan := f.plan, Region := f.region, IPXEChainURL := f.ipxe, ISOID := f.iso,
    SnapshotID := f.snapshot, ScriptID := f.script, AttachPrivateNetwork := f.networks,
    Label := f.label, SSHKeys := f.ssh, AppID := f.app, UserData := f.userData,
    ReservedIPv4 := f.ipv4, Hostname := f.host, Tag := f.tag, FirewallGroupID := f.fwg,
    EnableIPv6 := false, DDOSProtection := false, ActivationEmail := false,
    Backups := false, EnablePrivateNetwork := false, OsID := 0 }

/-- The `switch osOption` of `serverCreate`: sets `opt.OsID`, or gives the line printed by
the `default` case before `os.Exit(1)`. -/
def createSwitch (f : CreateFlags) (osOption : String) (opt : InstanceCreateReq) :
    Except String InstanceCreateReq :=
  if osOption = "os_id" then .ok { opt with OsID := f.osID }
  else if osOption = "app_id" then .ok { opt with OsID := osAppID }
  else if osOption = "iso_id" then .ok { opt with OsID := osIsoID }
  else if osOption = "snapshot_id" then .ok { opt with OsID := osSnapID }
  else .error "Error occurred while getting your intended os type\n"

/-- The five `if flag \{ opt.Field = true }` statements that follow the `switch`. -/
def createToggles (f : CreateFlags) (opt : InstanceCreateReq) : InstanceCreateReq :=
  let opt := if f.ipv6 then { opt with EnableIPv6 := true } else opt
  let opt := if f.ddos then { opt with DDOSProtection := true } else opt
  let opt := if f.notify then { opt with ActivationEmail := true } else opt
  let opt := if f.backup then { opt with Backups := true } else opt
  let opt := if f.privateNetwork then { opt with EnablePrivateNetwork := true } else opt
  opt

/-- Request `opt` that `serverCreate` passes to `client.Instance.Create`, or the line
printed before `os.Exit(1)` when the handler stops before the call. -/
def createReq (seed : Nat) (f : CreateFlags) : Except String InstanceCreateReq :=
  match createOsOption seed f with
  | .error line => .error line
  | .ok osOption =>
    match createSwitch f osOption (createOptLiteral f) with
    | .error line => .error line
    | .ok opt => .ok (createToggles f opt)

/-- Embedding of the `Run` function of `serverCreate`; `seed` fixes the order in which
`optionCheck` ranges over the option map, `api` is the gateway. -/
def serverCreate.Run (seed : Nat) (api : ApiCall → Option String) (f : CreateFlags) : Outcome :=
  match createReq seed f with
  | .error line => { out := [.text line], calls := [], ending := .exit 1 }
  | .ok opt =>
    match api (.Create opt) with
    | some err =>
      { out := [.text ("error creating instance : " ++ err ++ "\n")],
        calls := [.Create opt], ending := .exit 1 }
    | none => { out := [.printer "Server"], calls := [.Create opt], ending := .returned }

/-! ## Example invocations of `server create` -/

/-- Flags of `server create --region ewr --plan vc2-1c-1gb`. -/
def createBare : CreateFlags :=
  { defaultCreateFlags with region := "ewr", plan := "vc2-1c-1gb" }

/-- Flags of `server create --region ewr --plan vc2-1c-1gb --app 37`. -/
def createApp37 : CreateFlags := { createBare with app := 37 }

/-- Flags of `server create --region ewr --plan vc2-1c-1gb --iso abc`. -/
def createIsoAbc : CreateFlags := { createBare with iso := "abc" }

/-- Flags of `server create --region ewr --plan vc2-1c-1gb --snapshot snap1`. -/
def createSnap1 : CreateFlags := { createBare with snapshot := "snap1" }

/-- Flags of `server create --region ewr --plan vc2-1c-1gb --os 270`. -/
def createOs270 : CreateFlags := { createBare with osID := 270 }

/-- Flags of `server create --region ewr --plan vc2-1c-1gb --iso abc --snapshot snap1`. -/
def createIsoSnap : CreateFlags := { createBare with iso := "abc", snapshot := "snap1" }

/-! ## The command tree: `Use` strings and `Args` validators -/

/-- The `cobra.Command` variables of `server.go` that have a `Run` function. -/
inductive Command where
  | serverStart
  | serverStop
  | serverRestart
  | serverReinstall
  | serverTag
  | serverDelete
  | serverLabel
  | serverBandwidth
  | serverIPV4List
  | serverIPV6List
  | serverList
  | serverInfo
  | updateFwgGroup
  | osUpdate
  | appUpdate
  | backupGet
  | backupCreate
  | isoStatus
  | isoAttach
  | isoDetach
  | serverRestore
  | createIpv4
  | deleteIpv4
  | upgradePlan
  | defaultIpv4
  | listIpv6
  | deleteIpv6
  | setIpv4
  | setIpv6
  | serverCreate
  | setUserData
  | getUserData
  deriving DecidableEq, Repr

/-- All commands, in source order. -/
def Command.all : List Command :=
  [.serverStart, .serverStop, .serverRestart, .serverReinstall, .serverTag, .serverDelete, .serverLabel, .serverBandwidth, .serverIPV4List, .serverIPV6List, .serverList, .serverInfo, .updateFwgGroup, .osUpdate, .appUpdate, .backupGet, .backupCreate, .isoStatus, .isoAttach, .isoDetach, .serverRestore, .createIpv4, .deleteIpv4, .upgradePlan, .defaultIpv4, .listIpv6, .deleteIpv6, .setIpv4, .setIpv6, .serverCreate, .setUserData, .getUserData]

/-- The `Use` field of each command. -/
def Command.Use : Command → String
  | .serverStart => "start <instanceID>"
  | .serverStop => "stop <instanceID>"
  | .serverRestart => "restart <instanceID>"
  | .serverReinstall => "reinstall <instanceID>"
  | .serverTag => "tag <instanceID>"
  | .serverDelete => "delete <instanceID>"
  | .serverLabel => "label <instanceID>"
  | .serverBandwidth => "bandwidth <instanceID>"
  | .serverIPV4List => "list <instanceID>"
  | .serverIPV6List => "list <instanceID>"
  | .serverList => "list"
  | .serverInfo => "get <instanceID>"
  | .updateFwgGroup => "update-firewall-group"
  | .osUpdate => "change <instanceID>"
  | .appUpdate => "change <instanceID>"
  | .backupGet => "get <instanceID>"
  | .backupCreate => "create <instanceID>"
  | .isoStatus => "status <instanceID>"
  | .isoAttach => "attach <instanceID>"
  | .isoDetach => "detach <instanceID>"
  | .serverRestore => "restore <instanceID>"
  | .createIpv4 => "create <instanceID>"
  | .deleteIpv4 => "delete <instanceID>"
  | .upgradePlan => "upgrade <instanceID>"
  | .defaultIpv4 => "default-ipv4 <instanceID>"
  | .listIpv6 => "list-ipv6 <instanceID>"
  | .deleteIpv6 => "delete-ipv6 <instanceID>"
  | .setIpv4 => "set-ipv4 <instanceID>"
  | .setIpv6 => "set-ipv6 <instanceID>"
  | .serverCreate => "create"
  | .setUserData => "set <instanceID>"
  | .getUserData => "get <instanceID>"

/-- The `Args` field of each command (`none` where the literal sets no `Args`): the
validator cobra runs on the positional arguments before `Run`; it returns a Go `error`. -/
def Command.Args : Command → Option (List String → Option String)
  | .serverStart => some fun args =>
      if args.length < 1 then some "please provide an instanceID" else none
  | .serverStop => some fun args =>
      if args.length < 1 then some "please provide an instanceID" else none
  | .serverRestart => some fun args =>
      if args.length < 1 then some "please provide an instanceID" else none
  | .serverReinstall => some fun args =>
      if args.length < 1 then some "please provide an instanceID" else none
  | .serverTag => some fun args =>
      if args.length < 1 then some "please provide an instanceID" else none
  | .serverDelete => some fun args =>
      if args.length < 1 then some "please provide an instanceID" else none
  | .serverLabel => some fun args =>
      if args.length < 1 then some "please provide an instanceID" else none
  | .serverBandwidth => some fun args =>
      if args.length < 1 then some "please provide an instanceID" else none
  | .serverIPV4List => some fun args =>
      if args.length < 1 then some "please provide an instanceID" else none
  | .serverIPV6List => some fun args =>
      if args.length < 1 then some "please provide an instanceID" else none
  | .serverList => none
  | .serverInfo => some fun args =>
      if args.length < 1 then some "please provide an instanceID" else none
  | .updateFwgGroup => none
  | .osUpdate => some fun args =>
      if args.length < 1 then some "please provide an instanceID" else none
  | .appUpdate => some fun args =>
      if args.length < 1 then some "please provide an instanceID" else none
  | .backupGet => some fun args =>
      if args.length < 1 then some "please provide an instanceID" else none
  | .backupCreate => some fun args =>
      -- `errors.New(...)` is evaluated as a statement, without `return`: its value is dropped
      let _dropped : Option String :=
        if args.length < 1 then some "please provide an instanceID" else none
      none
  | .isoStatus => some fun args =>
      if args.length < 1 then some "please provide an instanceID" else none
  | .isoAttach => some fun args =>
      if args.length < 1 then some "please provide an instanceID" else none
  | .isoDetach => some fun args =>
      if args.length < 1 then some "please provide an instanceID" else none
  | .serverRestore => some fun args =>
      if args.length < 1 then some "please provide an instanceID" else none
  | .createIpv4 => some fun args =>
      if args.length < 1 then some "please provide an instanceID" else none
  | .deleteIpv4 => some fun args =>
      if args.length < 1 then some "please provide an instanceID" else none
  | .upgradePlan => some fun args =>
      if args.length < 1 then some "please provide an instanceID" else none
  | .defaultIpv4 => some fun args =>
      if args.length < 1 then some "please provide an instanceID" else none
  | .listIpv6 => some fun args =>
      if args.length < 1 then some "please provide an instanceID" else none
  | .deleteIpv6 => some fun args =>
      if args.length < 1 then some "please provide an instanceID" else none
  | .setIpv4 => some fun args =>
      if args.length < 1 then some "please provide an instanceID" else none
  | .setIpv6 => some fun args =>
      if args.length < 1 then some "please provide an instanceID" else none
  | .serverCreate => none
  | .setUserData => some fun args =>
      if args.length < 1 then some "please provide an instanceID" else none
  | .getUserData => some fun args =>
      if args.length < 1 then some "please provide an instanceID" else none

/-- Whether the command's `Use` string announces `<instanceID>` as positional argument. -/
def Command.takesInstanceID (c : Command) : Bool :=
  " <instanceID>".toList.isSuffixOf c.Use.toList

/-- Result of dispatching a command: cobra runs the `Args` validator first and calls
`Run` only when it returns `nil`. -/
inductive Dispatched where
  | rejected (err : String)
  | ran (o : Outcome)
  deriving DecidableEq, Repr

/-- Cobra's order of execution for one command: `Args` on the positional arguments, then `Run`. -/
def dispatch (c : Command) (run : List String → Outcome) (args : List String) : Dispatched :=
  match c.Args with
  | none => .ran (run args)
  | some validate =>
    match validate args with
    | some err => .rejected err
    | none => .ran (run args)

/-- Outcome of a handler whose read of `args[0]` is out of range. -/
def indexPanic : Outcome :=
  { out := [], calls := [], ending := .panic "index out of range [0] with length 0" }

/-! ## `server restore` -/

/-- Flag values read by `serverRestore`. -/
structure RestoreFlags where
  backup : String
  snapshot : String
  deriving DecidableEq, Repr

/-- Embedding of the `Run` function of `serverRestore`. -/
def serverRestore.Run (api : ApiCall → Option String) (f : RestoreFlags)
    (args : List String) : Outcome :=
  match args with
  | [] => indexPanic
  | id :: _ =>
    let options : RestoreReq := {}
    if f.backup = "" ∧ f.snapshot = "" then
      { out := [.text "at least one flag must be provided (snapshot or backup)\n"],
        calls := [], ending := .exit 1 }
    else if f.backup ≠ "" ∧ f.snapshot ≠ "" then
      { out := [.text "one flag must be provided not both (snapshot or backup)\n"],
        calls := [], ending := .exit 1 }
    else
      let options :=
        if f.snapshot ≠ "" then { options with SnapshotID := f.snapshot }
        else { options with BackupId := f.backup }
      match api (.Restore id options) with
      | some err =>
        { out := [.text ("error restoring instance : " ++ err ++ "\n")],
          calls := [.Restore id options], ending := .exit 1 }
      | none =>
        { out := [.text "Instance has been restored\n"],
          calls := [.Restore id options], ending := .returned }

/-! ## `server backup create` -/

/-- Flag values read by `backupCreate`. -/
structure BackupFlags where
  crontType : String
  hour : Int
  dow : Int
  dom : Int
  deriving DecidableEq, Repr

/-- Embedding of the `Run` function of `backupCreate`. -/
def backupCreate.Run (api : ApiCall → Option String) (f : BackupFlags)
    (args : List String) : Outcome :=
  match args with
  | [] => indexPanic
  | id :: _ =>
    let backup : BackupScheduleReq :=
      { Type_ := f.crontType, Hour := f.hour, Dow := f.dow, Dom := f.dom }
    match api (.SetBackupSchedule id backup) with
    | some err =>
      { out := [.text ("error creating backup schedule : " ++ err ++ "\n")],
        calls := [.SetBackupSchedule id backup], ending := .exit 1 }
    | none =>
      { out := [.text "Created backup schedule\n"],
        calls := [.SetBackupSchedule id backup], ending := .returned }

/-! ## `server tag` -/

/-- Embedding of the `Run` function of `serverTag`; `tag` is the value of the `tag` flag. -/
def serverTag.Run (api : ApiCall → Option String) (tag : String)
    (args : List String) : Outcome :=
  match args with
  | [] => indexPanic
  | id :: _ =>
    let options : InstanceUpdateReq := { Tag := tag }
    match api (.Update id options) with
    | some err =>
      { out := [.text ("error adding tag to server : " ++ err ++ "\n")],
        calls := [.Update id options], ending := .exit 1 }
    | none =>
      { out := [.text ("Tagged server with : " ++ tag ++ "\n")],
        calls := [.Update id options], ending := .returned }

/-! ## Standard base64 (`encoding/base64`, `StdEncoding`) -/

/-- One byte of a Go `[]byte`. -/
abbrev Byte := Fin 256

/-- Byte holding the low eight bits of `n`. -/
def byteOfNat (n : Nat) : Byte := ⟨n % 256, Nat.mod_lt n (by decide)⟩

/-- Alphabet `encodeStd` of Go's `encoding/base64` (RFC 4648, section 4). -/
def encodeStd : List Char :=
  "ABCDEFGHIJKLMNOPQRSTUVWXYZabcdefghijklmnopqrstuvwxyz0123456789+/".toList

/-- Padding character `StdPadding`. -/
def stdPadding : Char := '='

/-- Character of the alphabet for a 6-bit value. -/
def encodeSextet (n : Nat) : Char := encodeStd.getD n 'A'

/-- Value of an alphabet character, `none` for any other character. -/
def decodeSextet (c : Char) : Option Nat := encodeStd.indexOf? c

/-- `StdEncoding.Encode` on the bytes: each 3-byte group `val = b0<<16 | b1<<8 | b2` gives the
four characters of `val>>18&0x3F`, `val>>12&0x3F`, `val>>6&0x3F`, `val&0x3F`; a last group of
one or two bytes is completed with padding. Shifts and masks are written as `*`, `/`, `%`. -/
def encodeChunks : List Byte → List Char
  | [] => []
  | [b0] =>
    let val := b0.val * 65536
    [encodeSextet (val / 262144 % 64), encodeSextet (val / 4096 % 64), stdPadding, stdPadding]
  | [b0, b1] =>
    let val := b0.val * 65536 + b1.val * 256
    [encodeSextet (val / 262144 % 64), encodeSextet (val / 4096 % 64),
      encodeSextet (val / 64 % 64), stdPadding]
  | b0 :: b1 :: b2 :: rest =>
    let val := b0.val * 65536 + b1.val * 256 + b2.val
    encodeSextet (val / 262144 % 64) :: encodeSextet (val / 4096 % 64)
      :: encodeSextet (val / 64 % 64) :: encodeSextet (val % 64) :: encodeChunks rest

/-- Go's `base64.StdEncoding.EncodeToString`. -/
def stdEncodeToString (src : List Byte) : String := String.mk (encodeChunks src)

/-- `StdEncoding.Decode` on padded input without line breaks: each 4-character group gives
`val = s0<<18 | s1<<12 | s2<<6 | s3` and the bytes `val>>16`, `val>>8`, `val`; a final group
ending in one or two padding characters gives two bytes or one. -/
def decodeChunks : List Char → Option (List Byte)
  | [] => some []
  | c0 :: c1 :: c2 :: c3 :: rest =>
    if c3 = stdPadding ∧ rest = [] then
      if c2 = stdPadding then
        match decodeSextet c0, decodeSextet c1 with
        | some s0, some s1 =>
          let val := s0 * 262144 + s1 * 4096
          some [byteOfNat (val / 65536)]
        | _, _ => none
      else
        match decodeSextet c0, decodeSextet c1, decodeSextet c2 with
        | some s0, some s1, some s2 =>
          let val := s0 * 262144 + s1 * 4096 + s2 * 64
          some [byteOfNat (val / 65536), byteOfNat (val / 256)]
        | _, _, _ => none
    else
      match decodeSextet c0, decodeSextet c1, decodeSextet c2, decodeSextet c3,
          decodeChunks rest with
      | some s0, some s1, some s2, some s3, some tail =>
        let val := s0 * 262144 + s1 * 4096 + s2 * 64 + s3
        some (byteOfNat (val / 65536) :: byteOfNat (val / 256) :: byteOfNat val :: tail)
      | _, _, _, _, _ => none
  | _ => none

/-- Go's `base64.StdEncoding.DecodeString`, an error being `none`. -/
def stdDecodeString (s : String) : Option (List Byte) := decodeChunks s.data

/-! ## `server user-data set` -/

/-- Embedding of the `Run` function of `setUserData`; `userData` is the value of the
`userdata` flag (a file path) and `readFile` stands for `ioutil.ReadFile`. -/
def setUserData.Run (api : ApiCall → Option String)
    (readFile : String → Except String (List Byte)) (userData : String)
    (args : List String) : Outcome :=
  match readFile userData with
  | .error err =>
    { out := [.text ("error reading user-data : " ++ err ++ "\n")], calls := [],
      ending := .exit 1 }
  | .ok rawData =>
    let options : InstanceUpdateReq := { UserData := stdEncodeToString rawData }
    match args with
    | [] => indexPanic
    | id :: _ =>
      match api (.Update id options) with
      | some err =>
        { out := [.text ("error setting user-data : " ++ err ++ "\n")],
          calls := [.Update id options], ending := .exit 1 }
      | none =>
        { out := [.text "Set user-data for server\n"],
          calls := [.Update id options], ending := .returned }

/-- The bytes of an ASCII text. -/
def asciiBytes (s : String) : List Byte := s.toList.map fun c => byteOfNat c.toNat

/-! ## Lemmas on `range` orders and on `optionCheck` -/

/-- Every order chosen by `rangeOrder` visits each entry of the map exactly once. -/
theorem rangeOrder_perm (seed : Nat) (m : GoMap) : (rangeOrder seed m).Perm m := by
  unfold rangeOrder
  rw [List.getD_eq_getElem?_getD]
  cases h : (List.permutations' m)[seed]? with
  | none => simp
  | some l =>
    simp only [Option.getD_some]
    exact List.mem_permutations'.1 (List.getElem?_mem h)

/-- Every order of the entries is chosen by some seed. -/
theorem rangeOrder_complete (m : GoMap) (l : List (String × GoValue)) (h : l.Perm m) :
    ∃ seed, rangeOrder seed m = l := by
  obtain ⟨n, hn⟩ := List.getElem?_of_mem (List.mem_permutations'.2 h)
  exact ⟨n, by simp [rangeOrder, List.getD_eq_getElem?_getD, hn]⟩

/-- The fold of the loop appends the selected keys to the accumulator. -/
theorem optionCheckLoop_foldl (enum : List (String × GoValue)) (acc : List String) :
    enum.foldl (fun result kv => if kv.2.neEmptyString then result ++ [kv.1] else result) acc
      = acc ++ selectedKeys enum := by
  induction enum generalizing acc with
  | nil => simp [selectedKeys]
  | cons kv rest ih =>
    rw [List.foldl_cons, ih]
    by_cases hv : kv.2.neEmptyString = true <;> simp [selectedKeys, hv]

/-- The loop of `optionCheck` collects the selected keys in the order of enumeration. -/
theorem optionCheckLoop_eq (enum : List (String × GoValue)) :
    optionCheckLoop enum = selectedKeys enum := by
  simp [optionCheckLoop, optionCheckLoop_foldl]

/-- Whatever the order of `range`, the loop collects the same keys, each as often. -/
theorem optionCheckLoop_rangeOrder (seed : Nat) (m : GoMap) :
    (optionCheckLoop (rangeOrder seed m)).Perm (selectedKeys m) := by
  rw [optionCheckLoop_eq]
  exact ((rangeOrder_perm seed m).filter _).map _

/-- No key collected: the empty name and `nil`. -/
theorem optionCheck_none (enum : List (String × GoValue)) (h : optionCheckLoop enum = []) :
    optionCheck enum = ("", none) := by
  simp [optionCheck, h]

/-- One key collected: that key and `nil`. -/
theorem optionCheck_one (enum : List (String × GoValue)) (k : String)
    (h : optionCheckLoop enum = [k]) : optionCheck enum = (k, none) := by
  simp [optionCheck, h]

/-- More than one key collected: the empty name and the error listing the keys. -/
theorem optionCheck_many (enum : List (String × GoValue))
    (h : 1 < (optionCheckLoop enum).length) :
    optionCheck enum = ("", some (tooManyMsg (optionCheckLoop enum))) := by
  simp [optionCheck, h]

/-! ## What the option map of `server create` selects -/

/-- Keys that pass `v != ""` in the option map of `serverCreate`: `app_id` always (its
value is an int), `snapshot_id` and `iso_id` when their flag is non-empty. -/
theorem selectedKeys_createOsOptions (f : CreateFlags) :
    selectedKeys (createOsOptions f)
      = "app_id" :: ((if f.snapshot ≠ "" then ["snapshot_id"] else [])
          ++ (if f.iso ≠ "" then ["iso_id"] else [])) := by
  by_cases hi : f.iso = "" <;> by_cases hs : f.snapshot = "" <;>
    simp [selectedKeys, createOsOptions, GoMap.set, GoValue.neEmptyString, hi, hs]

/-- With the iso and snapshot flags empty, `optionCheck` returns `app_id` and control
reaches the `switch` with it, whatever the app and os flags are. -/
theorem createOsOption_app (seed : Nat) (f : CreateFlags) (hiso : f.iso = "")
    (hsnap : f.snapshot = "") : createOsOption seed f = .ok "app_id" := by
  have hperm := optionCheckLoop_rangeOrder seed (createOsOptions f)
  rw [selectedKeys_createOsOptions] at hperm
  simp only [hiso, hsnap, ne_eq, not_true_eq_false, if_false, List.append_nil] at hperm
  have hone := optionCheck_one _ _ (List.perm_singleton.1 hperm)
  simp [createOsOption, hone]

/-- With the iso or the snapshot flag non-empty, `optionCheck` fails and `serverCreate`
prints its error, whatever the app and os flags are. -/
theorem createOsOption_many (seed : Nat) (f : CreateFlags)
    (h : f.iso ≠ "" ∨ f.snapshot ≠ "") :
    createOsOption seed f
      = .error ("error creating instance : "
          ++ tooManyMsg (optionCheckLoop (rangeOrder seed (createOsOptions f))) ++ "\n") := by
  have hperm := optionCheckLoop_rangeOrder seed (createOsOptions f)
  have hlen : 1 < (optionCheckLoop (rangeOrder seed (createOsOptions f))).length := by
    rw [hperm.length_eq, selectedKeys_createOsOptions]
    by_cases hi : f.iso = "" <;> by_cases hs : f.snapshot = "" <;> simp_all
  simp [createOsOption, optionCheck_many _ hlen]

/-- The statements after the `switch` leave the OS, app, iso and snapshot fields alone. -/
theorem createToggles_frame (f : CreateFlags) (opt : InstanceCreateReq) :
    (createToggles f opt).OsID = opt.OsID ∧ (createToggles f opt).AppID = opt.AppID
      ∧ (createToggles f opt).ISOID = opt.ISOID
      ∧ (createToggles f opt).SnapshotID = opt.SnapshotID := by
  simp only [createToggles]
  split_ifs <;> exact ⟨rfl, rfl, rfl, rfl⟩

/-- Request built once control reaches the `switch` with `app_id`. -/
theorem createReq_app (seed : Nat) (f : CreateFlags) (h : createOsOption seed f = .ok "app_id") :
    ∃ opt, createReq seed f = .ok opt ∧ opt.OsID = 186 ∧ opt.AppID = f.app
      ∧ opt.ISOID = f.iso ∧ opt.SnapshotID = f.snapshot := by
  have hsw : createSwitch f "app_id" (createOptLiteral f)
      = .ok { createOptLiteral f with OsID := osAppID } := by
    simp [createSwitch]
  obtain ⟨h1, h2, h3, h4⟩ := createToggles_frame f { createOptLiteral f with OsID := osAppID }
  refine ⟨createToggles f { createOptLiteral f with OsID := osAppID }, ?_, ?_, ?_, ?_, ?_⟩
  · simp only [createReq, h, hsw]
  · rw [h1]; rfl
  · rw [h2]; rfl
  · rw [h3]; rfl
  · rw [h4]; rfl

/-- A failed request construction ends the run with exit status 1 and no API call. -/
theorem serverCreate_Run_error (seed : Nat) (api : ApiCall → Option String) (f : CreateFlags)
    (line : String) (h : createReq seed f = .error line) :
    serverCreate.Run seed api f = { out := [.text line], calls := [], ending := .exit 1 } := by
  simp [serverCreate.Run, h]

/-- A successful request construction is followed by exactly one `Create` call. -/
theorem serverCreate_Run_ok (seed : Nat) (api : ApiCall → Option String) (f : CreateFlags)
    (opt : InstanceCreateReq) (h : createReq seed f = .ok opt) :
    (serverCreate.Run seed api f).calls = [.Create opt]
      ∧ (api (.Create opt) = none →
          serverCreate.Run seed api f
            = { out := [.printer "Server"], calls := [.Create opt], ending := .returned }) := by
  cases hapi : api (.Create opt) <;> simp [serverCreate.Run, h, hapi]

/-- An error from `optionCheck` or from the missing-os test ends the request construction. -/
theorem createReq_of_error (seed : Nat) (f : CreateFlags) (line : String)
    (h : createOsOption seed f = .error line) : createReq seed f = .error line := by
  simp [createReq, h]

/-- With the iso or the snapshot flag non-empty the run ends with the `optionCheck` error,
exit status 1 and no API call. -/
theorem serverCreate_Run_many (seed : Nat) (api : ApiCall → Option String) (f : CreateFlags)
    (h : f.iso ≠ "" ∨ f.snapshot ≠ "") :
    serverCreate.Run seed api f
      = { out := [.text ("error creating instance : "
            ++ tooManyMsg (optionCheckLoop (rangeOrder seed (createOsOptions f))) ++ "\n")],
          calls := [], ending := .exit 1 } :=
  serverCreate_Run_error seed api f _ (createReq_of_error seed f _ (createOsOption_many seed f h))

/-! ## Claims on `server create` -/

/-- C1: for `server create` with an application id `a ≠ 0`, the iso and snapshot flags empty
and any value of the os flag, the OS source reaching the `switch` is `app_id`, no usage
error stops the handler, and it issues exactly one `Create` call, whose request has
`OsID = 186` and `AppID = a`; when the gateway accepts the call the run ends normally. -/
theorem C1_create_app (seed : Nat) (api : ApiCall → Option String) (f : CreateFlags)
    (_happ : f.app ≠ 0) (hiso : f.iso = "") (hsnap : f.snapshot = "") :
    createOsOption seed f = .ok "app_id" ∧
    ∃ opt, createReq seed f = .ok opt ∧ opt.OsID = 186 ∧ opt.AppID = f.app ∧
      (serverCreate.Run seed api f).calls = [.Create opt] ∧
      (api (.Create opt) = none →
        serverCreate.Run seed api f
          = { out := [.printer "Server"], calls := [.Create opt], ending := .returned }) := by
  have hopt := createOsOption_app seed f hiso hsnap
  obtain ⟨opt, hreq, hos, happid, _, _⟩ := createReq_app seed f hopt
  obtain ⟨hcalls, hrun⟩ := serverCreate_Run_ok seed api f opt hreq
  exact ⟨hopt, opt, hreq, hos, happid, hcalls, hrun⟩

/-- C1 at `server create --region ewr --plan vc2-1c-1gb --app 37` with an accepting gateway. -/
theorem C1_create_app_witness :
    createOsOption 0 createApp37 = .ok "app_id" ∧
    ∃ opt, createReq 0 createApp37 = .ok opt ∧ opt.OsID = 186 ∧ opt.AppID = createApp37.app ∧
      (serverCreate.Run 0 (fun _ => none) createApp37).calls = [.Create opt] ∧
      ((fun _ => none : ApiCall → Option String) (.Create opt) = none →
        serverCreate.Run 0 (fun _ => none) createApp37
          = { out := [.printer "Server"], calls := [.Create opt], ending := .returned }) :=
  C1_create_app 0 (fun _ => none) createApp37 (by decide) rfl rfl

/-- C2, evaluated at `server create --region ewr --plan vc2-1c-1gb --iso abc`: whatever the
order of `range`, the OS source is not resolved to `iso_id`; the handler exits with status 1
on the `optionCheck` error, which names `app_id` and `iso_id`, and issues no call. -/
theorem C2_create_iso_rejected (seed : Nat) (api : ApiCall → Option String) :
    createOsOption seed createIsoAbc ≠ .ok "iso_id" ∧
    (serverCreate.Run seed api createIsoAbc).calls = [] ∧
    (serverCreate.Run seed api createIsoAbc).ending = .exit 1 ∧
    (optionCheckLoop (rangeOrder seed (createOsOptions createIsoAbc))).Perm ["app_id", "iso_id"] ∧
    serverCreate.Run 0 api createIsoAbc
      = { out := [.text ("error creating instance : Too many options have been selected : "
            ++ "[app_id iso_id] : please select one\n")],
          calls := [], ending := .exit 1 } := by
  have hne : createIsoAbc.iso ≠ "" ∨ createIsoAbc.snapshot ≠ "" := Or.inl (by decide)
  refine ⟨?_, ?_, ?_, ?_, ?_⟩
  · rw [createOsOption_many seed _ hne]; exact fun h => nomatch h
  · rw [serverCreate_Run_many seed api _ hne]
  · rw [serverCreate_Run_many seed api _ hne]
  · exact optionCheckLoop_rangeOrder seed _
  · exact serverCreate_Run_error 0 api _ _ (by decide)

/-- C3, evaluated at `server create --region ewr --plan vc2-1c-1gb --snapshot snap1`: whatever
the order of `range`, the OS source is not resolved to `snapshot_id`; the handler exits with
status 1 on the `optionCheck` error, which names `app_id` and `snapshot_id`, and issues no call. -/
theorem C3_create_snapshot_rejected (seed : Nat) (api : ApiCall → Option String) :
    createOsOption seed createSnap1 ≠ .ok "snapshot_id" ∧
    (serverCreate.Run seed api createSnap1).calls = [] ∧
    (serverCreate.Run seed api createSnap1).ending = .exit 1 ∧
    (optionCheckLoop (rangeOrder seed (createOsOptions createSnap1))).Perm
      ["app_id", "snapshot_id"] ∧
    serverCreate.Run 0 api createSnap1
      = { out := [.text ("error creating instance : Too many options have been selected : "
            ++ "[app_id snapshot_id] : please select one\n")],
          calls := [], ending := .exit 1 } := by
  have hne : createSnap1.iso ≠ "" ∨ createSnap1.snapshot ≠ "" := Or.inr (by decide)
  refine ⟨?_, ?_, ?_, ?_, ?_⟩
  · rw [createOsOption_many seed _ hne]; exact fun h => nomatch h
  · rw [serverCreate_Run_many seed api _ hne]
  · rw [serverCreate_Run_many seed api _ hne]
  · exact optionCheckLoop_rangeOrder seed _
  · exact serverCreate_Run_error 0 api _ _ (by decide)

/-- C4, evaluated at `server create --region ewr --plan vc2-1c-1gb --os 270`: whatever the
order of `range`, the OS source reaching the `switch` is `app_id`, not `os_id`, and the one
request submitted has `OsID = 186`, not the os flag 270. -/
theorem C4_create_os_flag_ignored (seed : Nat) (api : ApiCall → Option String) :
    createOs270.osID = 270 ∧
    createOsOption seed createOs270 = .ok "app_id" ∧
    ∃ opt, createReq seed createOs270 = .ok opt ∧ opt.OsID = 186 ∧
      (serverCreate.Run seed api createOs270).calls = [.Create opt] := by
  have hopt := createOsOption_app seed createOs270 rfl rfl
  obtain ⟨opt, hreq, hos, _, _, _⟩ := createReq_app seed _ hopt
  exact ⟨rfl, hopt, opt, hreq, hos, (serverCreate_Run_ok seed api _ opt hreq).1⟩

/-- C5, evaluated at `server create --region ewr --plan vc2-1c-1gb` (no os, app, iso or
snapshot flag): whatever the order of `range`, the handler does not stop on the missing os id;
the OS source is `app_id` and it submits a request with `OsID = 186` and `AppID = 0`. -/
theorem C5_create_no_source_submits (seed : Nat) (api : ApiCall → Option String) :
    createOsOption seed createBare = .ok "app_id" ∧
    ∃ opt, createReq seed createBare = .ok opt ∧ opt.OsID = 186 ∧ opt.AppID = 0 ∧
      (serverCreate.Run seed api createBare).calls = [.Create opt] := by
  have hopt := createOsOption_app seed createBare rfl rfl
  obtain ⟨opt, hreq, hos, happ, _, _⟩ := createReq_app seed _ hopt
  exact ⟨hopt, opt, hreq, hos, happ, (serverCreate_Run_ok seed api _ opt hreq).1⟩

/-- C6, evaluated at `server create --region ewr --plan vc2-1c-1gb --iso abc --snapshot snap1`
(no app flag): the handler exits with status 1 on the `optionCheck` error before any call,
and the keys listed in the error are `app_id`, `snapshot_id` and `iso_id` in some order:
`app_id` is listed although no app was provided. -/
theorem C6_create_error_lists_app (seed : Nat) (api : ApiCall → Option String) :
    createIsoSnap.app = 0 ∧
    ∃ keys : List String, keys.Perm ["app_id", "snapshot_id", "iso_id"] ∧
      serverCreate.Run seed api createIsoSnap
        = { out := [.text ("error creating instance : " ++ tooManyMsg keys ++ "\n")],
            calls := [], ending := .exit 1 } := by
  refine ⟨rfl, optionCheckLoop (rangeOrder seed (createOsOptions createIsoSnap)), ?_, ?_⟩
  · exact optionCheckLoop_rangeOrder seed (createOsOptions createIsoSnap)
  · exact serverCreate_Run_many seed api _ (Or.inl (by decide))

/-! ## Claims on `optionCheck` -/

/-- In a string-valued map the selected keys are those of the non-empty entries. -/
theorem selectedKeys_stringOptions (m : List (String × String)) :
    selectedKeys (stringOptions m) = (nonEmptyEntries m).map Prod.fst := by
  induction m with
  | nil => rfl
  | cons kv rest ih =>
    have hrest : selectedKeys (stringOptions (kv :: rest))
        = (if kv.2 ≠ "" then [kv.1] else []) ++ selectedKeys (stringOptions rest) := by
      by_cases hv : kv.2 = "" <;>
        simp [selectedKeys, stringOptions, List.filter_cons, GoValue.neEmptyString, hv]
    have hne : (nonEmptyEntries (kv :: rest)).map Prod.fst
        = (if kv.2 ≠ "" then [kv.1] else []) ++ (nonEmptyEntries rest).map Prod.fst := by
      by_cases hv : kv.2 = "" <;> simp [nonEmptyEntries, List.filter_cons, hv]
    rw [hrest, hne, ih]

/-- C7: on every map of string-valued options and for every order of `range`, `optionCheck`
returns the empty name and no error when no entry is non-empty, the key of the entry and no
error when exactly one entry is non-empty, and the empty name with an error when more than
one entry is non-empty. -/
theorem C7_optionCheck_three_outcomes (m : List (String × String)) (seed : Nat) :
    (nonEmptyEntries m = [] → optionCheck (rangeOrder seed (stringOptions m)) = ("", none)) ∧
    (∀ k v, nonEmptyEntries m = [(k, v)] →
      optionCheck (rangeOrder seed (stringOptions m)) = (k, none)) ∧
    (1 < (nonEmptyEntries m).length →
      ∃ err, optionCheck (rangeOrder seed (stringOptions m)) = ("", some err)) := by
  have hperm := optionCheckLoop_rangeOrder seed (stringOptions m)
  rw [selectedKeys_stringOptions] at hperm
  refine ⟨fun h0 => ?_, fun k v h1 => ?_, fun h2 => ?_⟩
  · rw [h0, List.map_nil] at hperm
    exact optionCheck_none _ (List.perm_nil.1 hperm)
  · rw [h1] at hperm
    exact optionCheck_one _ k (List.perm_singleton.1 hperm)
  · refine ⟨_, optionCheck_many _ ?_⟩
    rw [hperm.length_eq, List.length_map]
    exact h2

/-- C7 on three concrete maps, one per outcome. -/
theorem C7_optionCheck_three_outcomes_witness :
    optionCheck (rangeOrder 1 (stringOptions [("iso_id", ""), ("snapshot_id", "")])) = ("", none) ∧
    optionCheck (rangeOrder 1 (stringOptions [("iso_id", ""), ("snapshot_id", "s")]))
      = ("snapshot_id", none) ∧
    ∃ err, optionCheck (rangeOrder 1 (stringOptions [("iso_id", "i"), ("snapshot_id", "s")]))
      = ("", some err) :=
  ⟨(C7_optionCheck_three_outcomes [("iso_id", ""), ("snapshot_id", "")] 1).1 (by decide),
   (C7_optionCheck_three_outcomes [("iso_id", ""), ("snapshot_id", "s")] 1).2.1
     "snapshot_id" "s" (by decide),
   (C7_optionCheck_three_outcomes [("iso_id", "i"), ("snapshot_id", "s")] 1).2.2 (by decide)⟩

/-- C8, evaluated on the map `\{"app_id": 0, "snapshot_id": ""}` that `serverCreate` builds
from the default flags: every value is the integer 0 or the empty string, yet for every order
of `range` `optionCheck` returns the name `app_id`, not the empty name. -/
theorem C8_optionCheck_int_zero_selected (seed : Nat) :
    createOsOptions defaultCreateFlags = [("app_id", .int 0), ("snapshot_id", .str "")] ∧
    optionCheck (rangeOrder seed [("app_id", .int 0), ("snapshot_id", .str "")])
      = ("app_id", none) := by
  refine ⟨by decide, optionCheck_one _ _ (List.perm_singleton.1 ?_)⟩
  have hperm := optionCheckLoop_rangeOrder seed [("app_id", .int 0), ("snapshot_id", .str "")]
  have hsel : selectedKeys [("app_id", .int 0), ("snapshot_id", .str "")] = ["app_id"] := by
    decide
  rw [hsel] at hperm
  exact hperm

/-! ## Claims on `server restore` and on the argument validators -/

/-- C9: for `server restore <id>`, cobra runs the handler, which issues a `Restore` call if
and only if exactly one of the backup and snapshot flags is non-empty; with both empty it
prints "at least one flag must be provided (snapshot or backup)" and with both non-empty
"one flag must be provided not both (snapshot or backup)", exiting with status 1 without any
call; with exactly one non-empty the single call targets `id` and carries that value in its
own field, the other field empty. -/
theorem C9_restore_exclusive (api : ApiCall → Option String) (f : RestoreFlags)
    (id : String) (rest : List String) :
    dispatch .serverRestore (serverRestore.Run api f) (id :: rest)
      = .ran (serverRestore.Run api f (id :: rest)) ∧
    ((serverRestore.Run api f (id :: rest)).calls ≠ [] ↔
      (f.backup ≠ "" ∧ f.snapshot = "") ∨ (f.backup = "" ∧ f.snapshot ≠ "")) ∧
    (f.backup = "" ∧ f.snapshot = "" →
      serverRestore.Run api f (id :: rest)
        = { out := [.text "at least one flag must be provided (snapshot or backup)\n"],
            calls := [], ending := .exit 1 }) ∧
    (f.backup ≠ "" ∧ f.snapshot ≠ "" →
      serverRestore.Run api f (id :: rest)
        = { out := [.text "one flag must be provided not both (snapshot or backup)\n"],
            calls := [], ending := .exit 1 }) ∧
    (f.backup ≠ "" ∧ f.snapshot = "" →
      (serverRestore.Run api f (id :: rest)).calls
        = [.Restore id { BackupId := f.backup, SnapshotID := "" }]) ∧
    (f.backup = "" ∧ f.snapshot ≠ "" →
      (serverRestore.Run api f (id :: rest)).calls
        = [.Restore id { BackupId := "", SnapshotID := f.snapshot }]) := by
  refine ⟨by simp [dispatch, Command.Args], ?_, ?_, ?_, ?_, ?_⟩
  · by_cases hb : f.backup = "" <;> by_cases hs : f.snapshot = ""
    · simp [serverRestore.Run, hb, hs]
    · cases hapi : api (.Restore id { BackupId := "", SnapshotID := f.snapshot }) <;>
        simp [serverRestore.Run, hb, hs, hapi]
    · cases hapi : api (.Restore id { BackupId := f.backup, SnapshotID := "" }) <;>
        simp [serverRestore.Run, hb, hs, hapi]
    · simp [serverRestore.Run, hb, hs]
  · rintro ⟨hb, hs⟩
    simp [serverRestore.Run, hb, hs]
  · rintro ⟨hb, hs⟩
    simp [serverRestore.Run, hb, hs]
  · rintro ⟨hb, hs⟩
    cases hapi : api (.Restore id { BackupId := f.backup, SnapshotID := "" }) <;>
      simp [serverRestore.Run, hb, hs, hapi]
  · rintro ⟨hb, hs⟩
    cases hapi : api (.Restore id { BackupId := "", SnapshotID := f.snapshot }) <;>
      simp [serverRestore.Run, hb, hs, hapi]

/-- C9 at `server restore abc123 --backup b1`, `--snapshot s1`, no flag, and both flags. -/
theorem C9_restore_exclusive_witness :
    (serverRestore.Run (fun _ => none) ⟨"b1", ""⟩ ["abc123"]).calls
      = [.Restore "abc123" { BackupId := "b1", SnapshotID := "" }] ∧
    (serverRestore.Run (fun _ => none) ⟨"", "s1"⟩ ["abc123"]).calls
      = [.Restore "abc123" { BackupId := "", SnapshotID := "s1" }] ∧
    serverRestore.Run (fun _ => none) ⟨"", ""⟩ ["abc123"]
      = { out := [.text "at least one flag must be provided (snapshot or backup)\n"],
          calls := [], ending := .exit 1 } ∧
    serverRestore.Run (fun _ => none) ⟨"b1", "s1"⟩ ["abc123"]
      = { out := [.text "one flag must be provided not both (snapshot or backup)\n"],
          calls := [], ending := .exit 1 } :=
  ⟨(C9_restore_exclusive (fun _ => none) ⟨"b1", ""⟩ "abc123" []).2.2.2.2.1 (by decide),
   (C9_restore_exclusive (fun _ => none) ⟨"", "s1"⟩ "abc123" []).2.2.2.2.2 (by decide),
   (C9_restore_exclusive (fun _ => none) ⟨"", ""⟩ "abc123" []).2.2.1 (by decide),
   (C9_restore_exclusive (fun _ => none) ⟨"b1", "s1"⟩ "abc123" []).2.2.2.1 (by decide)⟩

/-- C10, evaluated at `server backup create --type daily` with no positional argument: the
command announces `<instanceID>`, yet its validator returns `nil` on the empty argument list,
cobra runs the handler, and the handler panics on `args[0]`; every other command that announces
`<instanceID>` has a validator returning "please provide an instanceID" on the empty list. -/
theorem C10_backupCreate_accepts_no_args (api : ApiCall → Option String) (f : BackupFlags) :
    Command.backupCreate.takesInstanceID = true ∧
    (Command.backupCreate.Args.map fun validate => validate []) = some none ∧
    dispatch .backupCreate (backupCreate.Run api f) [] = .ran indexPanic ∧
    ∀ c : Command, c.takesInstanceID = true → c ≠ .backupCreate →
      (c.Args.map fun validate => validate []) = some (some "please provide an instanceID") := by
  refine ⟨by decide, by decide, by simp [dispatch, Command.Args, backupCreate.Run], ?_⟩
  intro c
  cases c <;> decide

/-! ## Standard base64: decoding undoes encoding -/

/-- On the 64 values of a sextet the alphabet lookup is inverted by `decodeSextet`, and it
never yields the padding character. -/
theorem sextet_table : ∀ n : Fin 64,
    decodeSextet (encodeSextet n.val) = some n.val ∧ encodeSextet n.val ≠ stdPadding := by
  decide

theorem decodeSextet_encodeSextet (n : Nat) :
    decodeSextet (encodeSextet (n % 64)) = some (n % 64) :=
  (sextet_table ⟨n % 64, Nat.mod_lt n (by decide)⟩).1

theorem encodeSextet_ne_padding (n : Nat) : encodeSextet (n % 64) ≠ stdPadding :=
  (sextet_table ⟨n % 64, Nat.mod_lt n (by decide)⟩).2

theorem byteOfNat_eq (n : Nat) (b : Byte) (h : n % 256 = b.val) : byteOfNat n = b :=
  Fin.ext h

/-- Decoding the encoded groups gives back the bytes. -/
theorem decodeChunks_encodeChunks : ∀ src : List Byte, decodeChunks (encodeChunks src) = some src
  | [] => rfl
  | [b0] => by
    have h0 := b0.isLt
    simp only [encodeChunks, decodeChunks, and_self, if_true, decodeSextet_encodeSextet]
    congr 2
    exact byteOfNat_eq _ _ (by omega)
  | [b0, b1] => by
    have h0 := b0.isLt
    have h1 := b1.isLt
    simp only [encodeChunks, decodeChunks, and_self, if_true, encodeSextet_ne_padding,
      if_false, decodeSextet_encodeSextet]
    congr 2
    · exact byteOfNat_eq _ _ (by omega)
    · congr 1
      exact byteOfNat_eq _ _ (by omega)
  | b0 :: b1 :: b2 :: rest => by
    have h0 := b0.isLt
    have h1 := b1.isLt
    have h2 := b2.isLt
    have ih := decodeChunks_encodeChunks rest
    simp only [encodeChunks, decodeChunks, encodeSextet_ne_padding, false_and, if_false,
      decodeSextet_encodeSextet, ih]
    congr 2
    · exact byteOfNat_eq _ _ (by omega)
    · congr 1
      · exact byteOfNat_eq _ _ (by omega)
      · congr 1
        exact byteOfNat_eq _ _ (by omega)

/-- `DecodeString` undoes `EncodeToString` on every byte sequence. -/
theorem stdDecodeString_stdEncodeToString (src : List Byte) :
    stdDecodeString (stdEncodeToString src) = some src :=
  decodeChunks_encodeChunks src

/-! ## Further lemmas on the request built by `server create` -/

/-- The `switch` changes no field but `OsID`. -/
theorem createSwitch_frame (f : CreateFlags) (osOption : String)
    (opt opt' : InstanceCreateReq) (h : createSwitch f osOption opt = .ok opt') :
    ∃ n, opt' = { opt with OsID := n } := by
  unfold createSwitch at h
  split_ifs at h
  · exact ⟨_, (Except.ok.inj h).symm⟩
  · exact ⟨_, (Except.ok.inj h).symm⟩
  · exact ⟨_, (Except.ok.inj h).symm⟩
  · exact ⟨_, (Except.ok.inj h).symm⟩

/-- After the five `if` statements each boolean field of a request whose booleans were all
`false` equals its flag. -/
theorem createToggles_values (f : CreateFlags) (n : Int) :
    (createToggles f { createOptLiteral f with OsID := n }).ActivationEmail = f.notify
      ∧ (createToggles f { createOptLiteral f with OsID := n }).DDOSProtection = f.ddos
      ∧ (createToggles f { createOptLiteral f with OsID := n }).EnableIPv6 = f.ipv6
      ∧ (createToggles f { createOptLiteral f with OsID := n }).Backups = f.backup
      ∧ (createToggles f { createOptLiteral f with OsID := n }).EnablePrivateNetwork
          = f.privateNetwork := by
  simp only [createToggles, createOptLiteral]
  split_ifs <;> simp_all

/-- A request comes out of the construction only through the `switch` and the `if`s. -/
theorem createReq_ok (seed : Nat) (f : CreateFlags) (opt : InstanceCreateReq)
    (h : createReq seed f = .ok opt) :
    ∃ osOption n, createOsOption seed f = .ok osOption
      ∧ opt = createToggles f { createOptLiteral f with OsID := n } := by
  unfold createReq at h
  cases hopt : createOsOption seed f with
  | error line => simp [hopt] at h
  | ok osOption =>
    simp only [hopt] at h
    cases hsw : createSwitch f osOption (createOptLiteral f) with
    | error line => simp [hsw] at h
    | ok opt' =>
      simp only [hsw] at h
      obtain ⟨n, hn⟩ := createSwitch_frame f osOption _ _ hsw
      exact ⟨osOption, n, rfl, by rw [← Except.ok.inj h, hn]⟩

/-- The only call a run of `serverCreate` can issue is `Create` on the request built. -/
theorem serverCreate_Run_calls_mem (seed : Nat) (api : ApiCall → Option String)
    (f : CreateFlags) (opt : InstanceCreateReq)
    (h : ApiCall.Create opt ∈ (serverCreate.Run seed api f).calls) :
    createReq seed f = .ok opt := by
  unfold serverCreate.Run at h
  cases hreq : createReq seed f with
  | error line => simp [hreq] at h
  | ok opt' =>
    simp only [hreq] at h
    cases hapi : api (.Create opt') <;> simp [hapi] at h <;> rw [h]

/-- The order of `range` reaches the request construction only through `osOption`. -/
theorem createReq_congr (seed1 seed2 : Nat) (f : CreateFlags)
    (h : createOsOption seed1 f = createOsOption seed2 f) :
    createReq seed1 f = createReq seed2 f := by
  simp only [createReq, h]

/-- A submitted request exists only when the iso and snapshot flags are both empty. -/
theorem createReq_ok_flags (seed : Nat) (f : CreateFlags) (opt : InstanceCreateReq)
    (h : createReq seed f = .ok opt) : f.iso = "" ∧ f.snapshot = "" := by
  by_contra hne
  have hor : f.iso ≠ "" ∨ f.snapshot ≠ "" := by
    by_cases hi : f.iso = ""
    · exact Or.inr fun hs => hne ⟨hi, hs⟩
    · exact Or.inl hi
  rw [createReq_of_error seed f _ (createOsOption_many seed f hor)] at h
  exact nomatch h

/-! ## Claims on `server tag`, on determinism and on the boolean fields -/

/-- C11: for `server tag <id> --tag t`, for every id and tag, cobra runs the handler, which
issues exactly one `Update` call on the first positional argument with a request whose `Tag`
is `t` and whose other fields are all zero; when the gateway accepts the call the handler
prints "Tagged server with : t" and returns. -/
theorem C11_tag_update (api : ApiCall → Option String) (tag id : String) (rest : List String) :
    dispatch .serverTag (serverTag.Run api tag) (id :: rest)
      = .ran (serverTag.Run api tag (id :: rest)) ∧
    (serverTag.Run api tag (id :: rest)).calls
      = [.Update id { Plan := "", Label := "", Tag := tag, OsID := 0, AppID := 0,
                      UserData := "", FirewallGroupID := "" }] ∧
    (api (.Update id { Tag := tag }) = none →
      serverTag.Run api tag (id :: rest)
        = { out := [.text ("Tagged server with : " ++ tag ++ "\n")],
            calls := [.Update id { Tag := tag }], ending := .returned }) := by
  refine ⟨by simp [dispatch, Command.Args], ?_, ?_⟩
  · cases hapi : api (.Update id { Tag := tag }) <;> simp [serverTag.Run, hapi]
  · intro hapi
    simp [serverTag.Run, hapi]

/-- C11 at `server tag abc123 --tag prod` with an accepting gateway. -/
theorem C11_tag_update_witness :
    serverTag.Run (fun _ => none) "prod" ["abc123"]
      = { out := [.text "Tagged server with : prod\n"],
          calls := [.Update "abc123" { Tag := "prod" }], ending := .returned } :=
  (C11_tag_update (fun _ => none) "prod" "abc123" []).2.2 rfl

/-- C12: for every fixed set of `server create` flag values and any two orders in which
`range` may enumerate the option map, the two request constructions either both fail or both
produce the same request, and the two runs issue the same calls and end the same way. -/
theorem C12_create_deterministic (seed1 seed2 : Nat) (api : ApiCall → Option String)
    (f : CreateFlags) :
    ((∃ opt, createReq seed1 f = .ok opt ∧ createReq seed2 f = .ok opt) ∨
      (∃ line1 line2, createReq seed1 f = .error line1 ∧ createReq seed2 f = .error line2)) ∧
    (serverCreate.Run seed1 api f).calls = (serverCreate.Run seed2 api f).calls ∧
    (serverCreate.Run seed1 api f).ending = (serverCreate.Run seed2 api f).ending := by
  by_cases h : f.iso = "" ∧ f.snapshot = ""
  · have h1 := createOsOption_app seed1 f h.1 h.2
    have h2 := createOsOption_app seed2 f h.1 h.2
    have hreq := createReq_congr seed1 seed2 f (h1.trans h2.symm)
    obtain ⟨opt, hopt, _⟩ := createReq_app seed1 f h1
    refine ⟨Or.inl ⟨opt, hopt, hreq ▸ hopt⟩, ?_, ?_⟩ <;>
      simp only [serverCreate.Run, hreq]
  · have hor : f.iso ≠ "" ∨ f.snapshot ≠ "" := by
      by_cases hi : f.iso = ""
      · exact Or.inr fun hs => h ⟨hi, hs⟩
      · exact Or.inl hi
    refine ⟨Or.inr ⟨_, _, createReq_of_error seed1 f _ (createOsOption_many seed1 f hor),
      createReq_of_error seed2 f _ (createOsOption_many seed2 f hor)⟩, ?_, ?_⟩ <;>
      rw [serverCreate_Run_many seed1 api f hor, serverCreate_Run_many seed2 api f hor]

/-- C13: in every create request that `server create` submits, `ActivationEmail`,
`DDOSProtection`, `EnableIPv6`, `Backups` and `EnablePrivateNetwork` equal the notify, ddos,
ipv6, auto-backup and private-network flags; so when notify and ddos have their registered
defaults the request has `ActivationEmail = true` and `DDOSProtection = false`. -/
theorem C13_create_boolean_fields (seed : Nat) (api : ApiCall → Option String)
    (f : CreateFlags) (opt : InstanceCreateReq)
    (h : ApiCall.Create opt ∈ (serverCreate.Run seed api f).calls) :
    opt.ActivationEmail = f.notify ∧ opt.DDOSProtection = f.ddos ∧ opt.EnableIPv6 = f.ipv6 ∧
    opt.Backups = f.backup ∧ opt.EnablePrivateNetwork = f.privateNetwork ∧
    (f.notify = defaultCreateFlags.notify → f.ddos = defaultCreateFlags.ddos →
      opt.ActivationEmail = true ∧ opt.DDOSProtection = false) := by
  obtain ⟨_, n, _, hopt⟩ := createReq_ok seed f opt (serverCreate_Run_calls_mem seed api f opt h)
  obtain ⟨h1, h2, h3, h4, h5⟩ := createToggles_values f n
  rw [← hopt] at h1 h2 h3 h4 h5
  refine ⟨h1, h2, h3, h4, h5, fun hn hd => ⟨?_, ?_⟩⟩
  · rw [h1, hn]; rfl
  · rw [h2, hd]; rfl

/-- C13 at `server create --region ewr --plan vc2-1c-1gb`, every boolean flag at its
registered default: the request submitted has `ActivationEmail = true` and the four other
boolean fields `false`. -/
theorem C13_create_boolean_fields_witness :
    ∃ opt, ApiCall.Create opt ∈ (serverCreate.Run 0 (fun _ => none) createBare).calls ∧
      opt.ActivationEmail = true ∧ opt.DDOSProtection = false ∧ opt.EnableIPv6 = false ∧
      opt.Backups = false ∧ opt.EnablePrivateNetwork = false := by
  obtain ⟨opt, hreq, _⟩ := createReq_app 0 createBare (createOsOption_app 0 createBare rfl rfl)
  have hmem : ApiCall.Create opt ∈ (serverCreate.Run 0 (fun _ => none) createBare).calls := by
    rw [(serverCreate_Run_ok 0 (fun _ => none) createBare opt hreq).1]
    exact List.mem_singleton.2 rfl
  obtain ⟨h1, h2, h3, h4, h5, _⟩ :=
    C13_create_boolean_fields 0 (fun _ => none) createBare opt hmem
  exact ⟨opt, hmem, h1, h2, h3, h4, h5⟩

/-! ## Claims on `server user-data set`, on the OS id submitted and on the `switch` -/

/-- C14: for `server user-data set <id>`, for every byte content read from the user-data file,
the handler issues one `Update` call on the first positional argument whose request has
`UserData` equal to the standard padded base64 encoding of those bytes and every other field
zero, and base64-decoding that field gives back the bytes read. -/
theorem C14_userdata_base64 (api : ApiCall → Option String)
    (readFile : String → Except String (List Byte)) (userData : String)
    (rawData : List Byte) (id : String) (rest : List String)
    (h : readFile userData = .ok rawData) :
    (setUserData.Run api readFile userData (id :: rest)).calls
      = [.Update id { Plan := "", Label := "", Tag := "", OsID := 0, AppID := 0,
                      UserData := stdEncodeToString rawData, FirewallGroupID := "" }] ∧
    ∀ options, ApiCall.Update id options
        ∈ (setUserData.Run api readFile userData (id :: rest)).calls →
      stdDecodeString options.UserData = some rawData := by
  have hcalls : (setUserData.Run api readFile userData (id :: rest)).calls
      = [.Update id { UserData := stdEncodeToString rawData }] := by
    cases hapi : api (.Update id { UserData := stdEncodeToString rawData }) <;>
      simp [setUserData.Run, h, hapi]
  refine ⟨hcalls, fun options hmem => ?_⟩
  rw [hcalls, List.mem_singleton] at hmem
  rw [ApiCall.Update.inj hmem |>.2]
  exact stdDecodeString_stdEncodeToString rawData

/-- C14 at `server user-data set abc123` reading the ten bytes of a shell script header: the
field transmitted is "IyEvYmluL3NoCg==" and decodes to the bytes read. -/
theorem C14_userdata_base64_witness :
    (setUserData.Run (fun _ => none) (fun _ => .ok (asciiBytes "#!/bin/sh\n")) "/dev/stdin"
        ["abc123"]).calls
      = [.Update "abc123" { UserData := "IyEvYmluL3NoCg==" }] ∧
    stdDecodeString "IyEvYmluL3NoCg==" = some (asciiBytes "#!/bin/sh\n") :=
  have hw := C14_userdata_base64 (fun _ => none) (fun _ => .ok (asciiBytes "#!/bin/sh\n"))
    "/dev/stdin" (asciiBytes "#!/bin/sh\n") "abc123" [] rfl
  ⟨hw.1.trans (by decide), by decide⟩

/-- C15: every create request that `server create` submits has `OsID = 186` and empty `ISOID`
and `SnapshotID`, whatever the os, app, iso and snapshot flags: `app_id` is among the keys
`optionCheck` collects for every flag set, the OS source reaching the `switch` is `app_id`,
and a non-empty iso or snapshot flag ends the run with exit status 1 and no call. -/
theorem C15_create_always_app_os (seed : Nat) (api : ApiCall → Option String)
    (f : CreateFlags) (opt : InstanceCreateReq)
    (h : ApiCall.Create opt ∈ (serverCreate.Run seed api f).calls) :
    opt.OsID = 186 ∧ opt.ISOID = "" ∧ opt.SnapshotID = "" ∧
    createOsOption seed f = .ok "app_id" ∧
    "app_id" ∈ optionCheckLoop (rangeOrder seed (createOsOptions f)) ∧
    ∀ (seed' : Nat) (f' : CreateFlags), f'.iso ≠ "" ∨ f'.snapshot ≠ "" →
      (serverCreate.Run seed' api f').calls = [] ∧
      (serverCreate.Run seed' api f').ending = .exit 1 := by
  have hreq := serverCreate_Run_calls_mem seed api f opt h
  obtain ⟨hiso, hsnap⟩ := createReq_ok_flags seed f opt hreq
  have hopt := createOsOption_app seed f hiso hsnap
  obtain ⟨opt', hreq', hos, _, hi, hs⟩ := createReq_app seed f hopt
  have heq : opt' = opt := Except.ok.inj (hreq'.symm.trans hreq)
  subst heq
  refine ⟨hos, hi.trans hiso, hs.trans hsnap, hopt, ?_, fun seed' f' hor => ?_⟩
  · rw [(optionCheckLoop_rangeOrder seed (createOsOptions f)).mem_iff,
      selectedKeys_createOsOptions]
    exact List.mem_cons_self _ _
  · rw [serverCreate_Run_many seed' api f' hor]
    exact ⟨rfl, rfl⟩

/-- C15 at `server create --region ewr --plan vc2-1c-1gb --os 270`: the request submitted has
`OsID = 186` although the os flag is 270. -/
theorem C15_create_always_app_os_witness :
    createOs270.osID = 270 ∧
    ∃ opt, ApiCall.Create opt ∈ (serverCreate.Run 0 (fun _ => none) createOs270).calls ∧
      opt.OsID = 186 ∧ opt.ISOID = "" ∧ opt.SnapshotID = "" := by
  obtain ⟨opt, hreq, _⟩ := createReq_app 0 createOs270 (createOsOption_app 0 createOs270 rfl rfl)
  have hmem : ApiCall.Create opt ∈ (serverCreate.Run 0 (fun _ => none) createOs270).calls := by
    rw [(serverCreate_Run_ok 0 (fun _ => none) createOs270 opt hreq).1]
    exact List.mem_singleton.2 rfl
  obtain ⟨h1, h2, h3, _⟩ := C15_create_always_app_os 0 (fun _ => none) createOs270 opt hmem
  exact ⟨rfl, opt, hmem, h1, h2, h3⟩

/-- The line printed by the `default` branch of the `switch` is never the result of the
request construction. -/
theorem createReq_ne_default (seed : Nat) (f : CreateFlags) :
    createReq seed f ≠ .error "Error occurred while getting your intended os type\n" := by
  by_cases h : f.iso = "" ∧ f.snapshot = ""
  · obtain ⟨opt, hopt, _⟩ := createReq_app seed f (createOsOption_app seed f h.1 h.2)
    rw [hopt]
    exact fun heq => nomatch heq
  · have hor : f.iso ≠ "" ∨ f.snapshot ≠ "" := by
      by_cases hi : f.iso = ""
      · exact Or.inr fun hs => h ⟨hi, hs⟩
      · exact Or.inl hi
    rw [createReq_of_error seed f _ (createOsOption_many seed f hor)]
    intro heq
    have hd := congrArg String.data (Except.error.inj heq)
    simp [String.data_append] at hd

/-- C16: for every combination of flag values and every order of `range`, when control
reaches the `switch` of `server create` the resolved option is one of `os_id`, `app_id`,
`iso_id`, `snapshot_id`, the `switch` sets `OsID` instead of taking its `default` branch, and
the request construction never stops on the line that branch prints. -/
theorem C16_switch_default_unreachable (seed : Nat) (f : CreateFlags) (osOption : String)
    (h : createOsOption seed f = .ok osOption) :
    (osOption = "os_id" ∨ osOption = "app_id" ∨ osOption = "iso_id"
      ∨ osOption = "snapshot_id") ∧
    (∃ opt, createSwitch f osOption (createOptLiteral f) = .ok opt) ∧
    createReq seed f ≠ .error "Error occurred while getting your intended os type\n" := by
  have hflags : f.iso = "" ∧ f.snapshot = "" := by
    by_contra hne
    have hor : f.iso ≠ "" ∨ f.snapshot ≠ "" := by
      by_cases hi : f.iso = ""
      · exact Or.inr fun hs => hne ⟨hi, hs⟩
      · exact Or.inl hi
    rw [createOsOption_many seed f hor] at h
    exact nomatch h
  have happ : osOption = "app_id" :=
    (Except.ok.inj ((createOsOption_app seed f hflags.1 hflags.2).symm.trans h)).symm
  subst happ
  exact ⟨Or.inr (Or.inl rfl), ⟨{ createOptLiteral f with OsID := osAppID },
    by simp [createSwitch]⟩, createReq_ne_default seed f⟩

/-- C16 at `server create --region ewr --plan vc2-1c-1gb --app 37`. -/
theorem C16_switch_default_unreachable_witness :
    createOsOption 0 createApp37 = .ok "app_id" ∧
    ("app_id" = "os_id" ∨ "app_id" = "app_id" ∨ "app_id" = "iso_id"
      ∨ "app_id" = "snapshot_id") ∧
    (∃ opt, createSwitch createApp37 "app_id" (createOptLiteral createApp37) = .ok opt) ∧
    createReq 0 createApp37 ≠ .error "Error occurred while getting your intended os type\n" :=
  ⟨by decide, C16_switch_default_unreachable 0 createApp37 "app_id" (by decide)⟩

/-- C17, evaluated at `server backup create --type daily` with no positional argument: the
validator of `backupCreate` accepts the empty argument list, and the handler's read of
`args[0]` is then out of range: the run panics without any call. For every other command an
argument list accepted by the validator is non-empty. -/
theorem C17_backupCreate_index_out_of_range (api : ApiCall → Option String)
    (f : BackupFlags) :
    (∃ validate, Command.backupCreate.Args = some validate ∧ validate [] = none) ∧
    (backupCreate.Run api f []).ending = .panic "index out of range [0] with length 0" ∧
    (backupCreate.Run api f []).calls = [] ∧
    ∀ (c : Command) (validate : List String → Option String) (args : List String),
      c ≠ .backupCreate → c.Args = some validate → validate args = none → args ≠ [] := by
  refine ⟨⟨_, rfl, rfl⟩, rfl, rfl, ?_⟩
  intro c validate args hc hA hv hnil
  subst hnil
  cases c <;> simp only [Command.Args, Option.some.injEq, reduceCtorEq] at hA <;>
    first
      | exact hc rfl
      | (subst hA; simp at hv)

end VultrCli
